import Mathlib

/-!
Shallow embedding of `src/pcc/include/purescript_gc.hh` from
purescript-native: the managed-reference facade that selects, at build
time via the `USE_GC` preprocessor flag, between a tracing-collector
backend (Boehm GC, raw `T*` references) and a reference-counting backend
(`std::shared_ptr<T>`).

Heaps are modelled as functions from addresses (`Nat`) to optional cells,
with a bump counter `next` for fresh addresses.  Machine state that the
header manipulates (objects, the shared count stored in the control
block, the collector's finalizer table) is passed explicitly.  C++ types,
as far as the two `IS_POINTER_TYPE` predicates can distinguish them, are
modelled by a small inductive of type representations.
-/

namespace PureScript

variable {T A : Type}

/-- A C++ type representation, with exactly the structure the two
`IS_POINTER_TYPE` macros inspect: `std::is_pointer<T>` (tracing backend)
and `std::is_assignable<managed<void>, T>` (reference-counting backend).
`ptr t` stands for `t*`; `sharedPtr t` stands for `std::shared_ptr<t>`. -/
inductive CppTy where
  | int : CppTy
  | structTy : CppTy
  | ptr : CppTy → CppTy
  | sharedPtr : CppTy → CppTy
deriving DecidableEq, Repr

/-- An object in collector-managed memory under `USE_GC`: the stored value
and whether its destructor has already been run in place (by a
collector-invoked finalizer). -/
structure GCCell (T : Type) where
  value : T
  destroyed : Bool
deriving DecidableEq, Repr

/-- The code of a finalizer callback registered with the collector.  The
header registers exactly one kind: the lambda
`[](void* p, void*){ static_cast<T*>(p)->~T(); }` from
`MAKE_MANAGED_FINALIZED`, represented by `destructT`. -/
inductive FinalizerCode where
  | destructT : FinalizerCode
deriving DecidableEq, Repr

/-- Collector-managed memory under `USE_GC`: a bump allocator over cells
plus the collector's table of registered finalizers. -/
structure GCHeap (T : Type) where
  next : Nat
  mem : Nat → Option (GCCell T)
  finalizers : Nat → Option FinalizerCode

/-- A raw `T*` under `USE_GC` (`MANAGED_TYPE(T)` is `T*`): an address, or
`none` for a null pointer. -/
abbrev GCRef := Option Nat

/-- Tracing-backend `MAKE_MANAGED(T)`: `new (GC) T(args...)`.  Requests
collector memory at a fresh address and in-place constructs `T` there with
the given constructor (`ctor`) and arguments (`a`); no finalizer is
registered and no ownership bookkeeping occurs. -/
def GC.makeManaged (ctor : A → T) (a : A) (h : GCHeap T) : GCRef × GCHeap T :=
  (some h.next,
   { next := h.next + 1
     mem := fun j => if j = h.next then some ⟨ctor a, false⟩ else h.mem j
     finalizers := h.finalizers })

/-- Tracing-backend `MAKE_MANAGED_FINALIZED(T)`:
`new (GC, [](void* p, void*){ static_cast<T*>(p)->~T(); }) T(args...)`.
As `GC.makeManaged`, but additionally registers the destructor lambda as
the finalizer for the new object's address. -/
def GC.makeManagedFinalized (ctor : A → T) (a : A) (h : GCHeap T) : GCRef × GCHeap T :=
  (some h.next,
   { next := h.next + 1
     mem := fun j => if j = h.next then some ⟨ctor a, false⟩ else h.mem j
     finalizers := fun j => if j = h.next then some .destructT else h.finalizers j })

/-- The effect of `static_cast<T*>(p)->~T()`: the object at address `p`
is destroyed in place (its cell is marked destroyed); no other address,
the bump counter, and the finalizer table are untouched. -/
def GC.destructAt (h : GCHeap T) (p : Nat) : GCHeap T :=
  { h with
      mem := fun j =>
        if j = p then (h.mem p).map (fun c => ⟨c.value, true⟩) else h.mem j }

/-- Semantics of a registered finalizer callback, applied to the object's
address and the client-data argument (always null in the header, modelled
as `Unit`). -/
def FinalizerCode.run : FinalizerCode → Nat → Unit → GCHeap T → GCHeap T
  | .destructT, p, _, h => GC.destructAt h p

/-- Dereferencing a raw `T*` under `USE_GC`: defined only for a non-null
address holding a live (not yet destroyed) object. -/
def GC.deref (h : GCHeap T) (r : GCRef) : Option T :=
  match r with
  | none => none
  | some p =>
    match h.mem p with
    | some c => if c.destroyed then none else some c.value
    | none => none

/-- Tracing-backend `POINTER_FROM_MEMBER(P)`: expands to `P` itself — the
reference already is the address; the heap is neither read nor written. -/
def GC.pointerFromMember (h : GCHeap T) (r : GCRef) : GCRef × GCHeap T :=
  (r, h)

/-- Copying a raw `T*`: a plain bitwise copy of the address, with no
ownership bookkeeping. -/
def GC.copy (h : GCHeap T) (r : GCRef) : GCRef × GCHeap T :=
  (r, h)

/-- Tracing-backend `IS_POINTER_TYPE(T)`: `std::is_pointer<T>`, true
exactly for raw pointer types. -/
def GC.isPointerType : CppTy → Bool
  | .ptr _ => true
  | _ => false

/-- Tracing-backend `MANAGED_TYPE(T)` at the level of type
representations: `T*`. -/
def GC.managedTy (t : CppTy) : CppTy := .ptr t

/-- The single `std::make_shared<T>` allocation of the reference-counting
backend: the control block (holding the shared count) and the `T` object
live together in one allocation. -/
structure RCAlloc (T : Type) where
  value : T
  count : Nat
deriving DecidableEq, Repr

/-- The heap of the reference-counting backend: a bump allocator over
combined control-block-plus-object allocations. -/
structure RCHeap (T : Type) where
  next : Nat
  mem : Nat → Option (RCAlloc T)

/-- A `std::shared_ptr<T>` handle: holds the managed address, or `none`
when null/empty. -/
structure SharedPtr (T : Type) where
  addr : Option Nat
deriving DecidableEq, Repr

/-- Reference-counting `MAKE_MANAGED(T)`: `std::make_shared<T>(args...)`.
One allocation holds both the `T` value (initialized by `ctor a`) and the
control block with count `1`; the returned handle manages it. -/
def RC.makeShared (ctor : A → T) (a : A) (h : RCHeap T) : SharedPtr T × RCHeap T :=
  (⟨some h.next⟩,
   { next := h.next + 1
     mem := fun j => if j = h.next then some ⟨ctor a, 1⟩ else h.mem j })

/-- Reference-counting `MAKE_MANAGED_FINALIZED(T)`: the header defines it
to be `MAKE_MANAGED(T)`, i.e. `std::make_shared<T>`, with no finalizer
concept at all. -/
def RC.makeSharedFinalized (ctor : A → T) (a : A) (h : RCHeap T) : SharedPtr T × RCHeap T :=
  RC.makeShared ctor a h

/-- Dereferencing a `std::shared_ptr<T>`: the value of the allocation the
handle manages; undefined (`none`) for a null handle. -/
def RC.deref (h : RCHeap T) (p : SharedPtr T) : Option T :=
  match p.addr with
  | none => none
  | some i => (h.mem i).map RCAlloc.value

/-- Dereferencing through a raw `T*` obtained from `.get()` under the
reference-counting backend. -/
def RC.derefRaw (h : RCHeap T) (r : Option Nat) : Option T :=
  match r with
  | none => none
  | some i => (h.mem i).map RCAlloc.value

/-- Reference-counting `POINTER_FROM_MEMBER(P)`: expands to `P.get()` —
returns the stored address; the heap (in particular every shared count)
is neither read nor written. -/
def RC.pointerFromMember (h : RCHeap T) (p : SharedPtr T) : Option Nat × RCHeap T :=
  (p.addr, h)

/-- Copying a `std::shared_ptr<T>`: the copy manages the same address and
the shared count of that allocation is incremented; copying a null handle
does nothing. -/
def RC.copy (h : RCHeap T) (p : SharedPtr T) : SharedPtr T × RCHeap T :=
  match p.addr with
  | none => (⟨none⟩, h)
  | some i =>
    (⟨some i⟩,
     { h with
         mem := fun j =>
           if j = i then (h.mem i).map (fun c => ⟨c.value, c.count + 1⟩)
           else h.mem j })

/-- Reference-counting `IS_POINTER_TYPE(T)`:
`std::is_assignable<managed<void>, T>` with `managed<void>` being
`std::shared_ptr<void>`, which is assignable exactly from another
`std::shared_ptr` (converting assignment), not from integers, plain
structs, or raw pointers. -/
def RC.isPointerType : CppTy → Bool
  | .sharedPtr _ => true
  | _ => false

/-- Reference-counting `MANAGED_TYPE(T)` at the level of type
representations: `std::shared_ptr<T>`. -/
def RC.managedTy (t : CppTy) : CppTy := .sharedPtr t

/-- The representation `managed<T>` resolves to: `T*` when `USE_GC` is
defined, `std::shared_ptr<T>` otherwise. -/
def RefType (useGC : Bool) (T : Type) : Type :=
  match useGC with
  | true => GCRef
  | false => SharedPtr T

/-- The machine state the selected backend manipulates. -/
def HeapType (useGC : Bool) (T : Type) : Type :=
  match useGC with
  | true => GCHeap T
  | false => RCHeap T

/-- The facade factory `make_managed<T>(args...)`: forwards to
`MAKE_MANAGED(T)(std::forward<Args>(args)...)`, which the build-time flag
resolves to exactly one backend's constructor. -/
def makeManaged : (useGC : Bool) → (A → T) → A → HeapType useGC T →
    RefType useGC T × HeapType useGC T
  | true, ctor, a, h => GC.makeManaged ctor a h
  | false, ctor, a, h => RC.makeShared ctor a h

/-- The facade factory `make_managed_and_finalized<T>(args...)`: forwards
to `MAKE_MANAGED_FINALIZED(T)(std::forward<Args>(args)...)`. -/
def makeManagedAndFinalized : (useGC : Bool) → (A → T) → A → HeapType useGC T →
    RefType useGC T × HeapType useGC T
  | true, ctor, a, h => GC.makeManagedFinalized ctor a h
  | false, ctor, a, h => RC.makeSharedFinalized ctor a h

/-- Facade-level dereference of a managed reference. -/
def derefF : (useGC : Bool) → HeapType useGC T → RefType useGC T → Option T
  | true, h, r => GC.deref h r
  | false, h, p => RC.deref h p

/-- Facade-level `POINTER_FROM_MEMBER`: address extraction from a managed
reference, returning the raw address together with the (unchanged) state. -/
def extractAddr : (useGC : Bool) → HeapType useGC T → RefType useGC T →
    Option Nat × HeapType useGC T
  | true, h, r => GC.pointerFromMember h r
  | false, h, p => RC.pointerFromMember h p

/-- Facade-level dereference through an extracted raw address. -/
def derefRawF : (useGC : Bool) → HeapType useGC T → Option Nat → Option T
  | true, h, r => GC.deref h r
  | false, h, r => RC.derefRaw h r

/-- Facade-level copy of a managed reference. -/
def copyF : (useGC : Bool) → HeapType useGC T → RefType useGC T →
    RefType useGC T × HeapType useGC T
  | true, h, r => GC.copy h r
  | false, h, p => RC.copy h p

/-- Facade-level `IS_POINTER_TYPE`. -/
def isPointerTypeF : Bool → CppTy → Bool
  | true, t => GC.isPointerType t
  | false, t => RC.isPointerType t

/-- Facade-level `MANAGED_TYPE` on type representations. -/
def managedTyF : Bool → CppTy → CppTy
  | true, t => GC.managedTy t
  | false, t => RC.managedTy t

/-- C1: for every type `T` (with constructor `ctor`) and every argument
tuple `a`, `make_managed<T>(a)` returns a reference whose dereferenced
value equals `T` constructed directly with the same arguments, i.e.
`ctor a`, under whichever backend is compiled in. -/
theorem make_managed_construction_fidelity (b : Bool) (ctor : A → T) (a : A)
    (h : HeapType b T) :
    derefF b (makeManaged b ctor a h).2 (makeManaged b ctor a h).1 = some (ctor a) := by
  cases b
  · simp [makeManaged, derefF, RC.makeShared, RC.deref]
  · simp [makeManaged, derefF, GC.makeManaged, GC.deref]

/-- C2: under the reference-counting backend, `make_managed_and_finalized`
is extensionally equal to `make_managed` (`MAKE_MANAGED_FINALIZED(T)` is
defined as `MAKE_MANAGED(T)`): both produce identical handles and heaps,
and the heap of this backend has no finalizer component at all, so no
separate finalizer is registered. -/
theorem rc_finalized_equals_make_managed (ctor : A → T) (a : A) (h : RCHeap T) :
    RC.makeSharedFinalized ctor a h = RC.makeShared ctor a h ∧
    makeManagedAndFinalized false ctor a h = makeManaged false ctor a h :=
  ⟨rfl, rfl⟩

/-- C3: when `USE_GC` is absent (`useGC = false`), the facade resolves to
the reference-counting backend: `managed<T>` is `std::shared_ptr<T>`, the
factories construct via `std::make_shared`, and every facade operation
resolves to the reference-counting implementation, never the tracing one. -/
theorem default_backend_is_refcount (T : Type) (ctor : A → T) (a : A)
    (h : RCHeap T) (p : SharedPtr T) (t : CppTy) :
    RefType false T = SharedPtr T ∧
    HeapType false T = RCHeap T ∧
    makeManaged false ctor a h = RC.makeShared ctor a h ∧
    makeManagedAndFinalized false ctor a h = RC.makeSharedFinalized ctor a h ∧
    extractAddr false h p = RC.pointerFromMember h p ∧
    derefF false h p = RC.deref h p ∧
    copyF false h p = RC.copy h p ∧
    isPointerTypeF false t = RC.isPointerType t ∧
    managedTyF false t = RC.managedTy t :=
  ⟨rfl, rfl, rfl, rfl, rfl, rfl, rfl, rfl, rfl⟩

/-- C4: under the tracing backend, `make_managed_and_finalized` registers
the destructor lambda for the new object's address, and that finalizer,
applied to the object's address, invokes exactly `~T()` on the object at
that address and does nothing else: every other address, the finalizer
table and the bump counter are unchanged. -/
theorem gc_finalizer_invokes_destructor_only (ctor : A → T) (a : A)
    (h h2 : GCHeap T) (cd : Unit) (q : Nat) :
    (GC.makeManagedFinalized ctor a h).1 = some h.next ∧
    (GC.makeManagedFinalized ctor a h).2.finalizers h.next = some .destructT ∧
    FinalizerCode.run .destructT h.next cd h2 = GC.destructAt h2 h.next ∧
    (GC.destructAt h2 h.next).mem q =
      (if q = h.next then (h2.mem h.next).map (fun c => (⟨c.value, true⟩ : GCCell T))
       else h2.mem q) ∧
    (GC.destructAt h2 h.next).finalizers = h2.finalizers ∧
    (GC.destructAt h2 h.next).next = h2.next := by
  refine ⟨rfl, ?_, rfl, rfl, rfl, rfl⟩
  simp [GC.makeManagedFinalized]

/-- C5: for every type `T` and every just-constructed managed reference
(from either factory), dereferencing the raw address obtained by
`POINTER_FROM_MEMBER` yields the same observable value as dereferencing
the managed reference itself, under both backends. -/
theorem extract_address_deref_consistent (b : Bool) (ctor : A → T) (a : A)
    (h : HeapType b T) :
    derefRawF b (makeManaged b ctor a h).2
        (extractAddr b (makeManaged b ctor a h).2 (makeManaged b ctor a h).1).1 =
      derefF b (makeManaged b ctor a h).2 (makeManaged b ctor a h).1 ∧
    derefRawF b (makeManagedAndFinalized b ctor a h).2
        (extractAddr b (makeManagedAndFinalized b ctor a h).2
          (makeManagedAndFinalized b ctor a h).1).1 =
      derefF b (makeManagedAndFinalized b ctor a h).2
        (makeManagedAndFinalized b ctor a h).1 := by
  cases b <;> exact ⟨rfl, rfl⟩

/-- C6: address extraction leaves the state unchanged under both backends:
the heap returned by `extractAddr` is the input heap, the reference-counting
`P.get()` returns the stored address with every shared count unchanged,
and the tracing `POINTER_FROM_MEMBER` is the identity on the reference. -/
theorem extract_address_frame (b : Bool) (h : HeapType b T) (r : RefType b T)
    (h2 : RCHeap T) (p : SharedPtr T) (i : Nat) (hg : GCHeap T) (rg : GCRef) :
    (extractAddr b h r).2 = h ∧
    RC.pointerFromMember h2 p = (p.addr, h2) ∧
    ((RC.pointerFromMember h2 p).2.mem i).map RCAlloc.count = (h2.mem i).map RCAlloc.count ∧
    GC.pointerFromMember hg rg = (rg, hg) := by
  refine ⟨?_, rfl, rfl, rfl⟩
  cases b <;> rfl

/-- C7: under each backend, `IS_POINTER_TYPE` holds for a type that is
itself a managed reference (`managed<U>` for any `U`) and does not hold
for a plain value type (an integer or a plain struct). -/
theorem is_pointer_type_consistent (b : Bool) (u : CppTy) :
    isPointerTypeF b (managedTyF b u) = true ∧
    isPointerTypeF b .int = false ∧
    isPointerTypeF b .structTy = false := by
  cases b <;> exact ⟨rfl, rfl, rfl⟩

/-- C8: under the reference-counting backend, `make_managed<T>` returns a
handle managing a fresh allocation whose shared count is exactly `1`, with
the control block (the count) and the `T` value together in that single
allocation; exactly one address is consumed and all other addresses are
unchanged. -/
theorem rc_make_managed_count_one (ctor : A → T) (a : A) (h : RCHeap T) (j : Nat) :
    (RC.makeShared ctor a h).1 = ⟨some h.next⟩ ∧
    (RC.makeShared ctor a h).2.mem h.next = some ⟨ctor a, 1⟩ ∧
    (RC.makeShared ctor a h).2.next = h.next + 1 ∧
    (RC.makeShared ctor a h).2.mem j =
      (if j = h.next then some ⟨ctor a, 1⟩ else h.mem j) ∧
    makeManaged false ctor a h = RC.makeShared ctor a h := by
  refine ⟨rfl, ?_, rfl, rfl, rfl⟩
  simp [RC.makeShared]

/-- C9: on the success path, a reference returned by `make_managed<T>` or
`make_managed_and_finalized<T>` is never null: extracting its address
yields a non-null address, under both backends. -/
theorem constructed_reference_nonnull (b : Bool) (ctor : A → T) (a : A)
    (h : HeapType b T) :
    (extractAddr b (makeManaged b ctor a h).2 (makeManaged b ctor a h).1).1.isSome = true ∧
    (extractAddr b (makeManagedAndFinalized b ctor a h).2
        (makeManagedAndFinalized b ctor a h).1).1.isSome = true := by
  cases b <;> exact ⟨rfl, rfl⟩

/-- C10: a copy of a managed reference aliases the same object under both
backends: the address extracted from the copy equals the address extracted
from the original, and the copy dereferences to the same value (copying
never reallocates or re-seats the referent). -/
theorem copy_aliases_same_object (b : Bool) (h : HeapType b T) (r : RefType b T) :
    (extractAddr b (copyF b h r).2 (copyF b h r).1).1 = (extractAddr b h r).1 ∧
    derefF b (copyF b h r).2 (copyF b h r).1 = derefF b h r := by
  cases b
  · obtain ⟨addr⟩ := r
    cases addr with
    | none => exact ⟨rfl, rfl⟩
    | some i =>
      refine ⟨rfl, ?_⟩
      simp only [derefF, copyF, RC.copy, RC.deref, Option.map_map, if_pos rfl]
      cases h.mem i <;> rfl
  · exact ⟨rfl, rfl⟩

end PureScript
